import Mathlib

/-!
Shallow embedding of the estimation and decision engine of
`src/streamlit_app.py` (AWS migration network-pattern calculator):
static catalogs, throughput models (`calculate_enterprise_throughput`,
`calculate_dms_throughput`, `calculate_snowball_timeline`), the decision
engine (`get_optimal_networking_architecture`), the pricing resolver
(`get_comprehensive_pricing`, the cache of `AWSPricingManager`).

Python floats are modelled as exact rationals (ℚ); decimal literals in the
source are exact in ℚ.  Dictionary keys become inductive types; `dict.get`
defaults become `other` constructors.  A Python expression that raises
`ZeroDivisionError` is modelled by returning `none` from an `Option`-valued
function.
-/

namespace NetworkPatterns

/-- Keys of `instance_performance` (DataSync agent instance types). -/
inductive InstanceType
  | m5large | m5xlarge | m52xlarge | m54xlarge | m58xlarge
  | c52xlarge | c54xlarge | c59xlarge | r52xlarge | r54xlarge
deriving DecidableEq, Repr

/-- `instance_performance[...]["baseline_throughput"]`. -/
def baseline_throughput : InstanceType → ℚ
  | .m5large => 150 | .m5xlarge => 250 | .m52xlarge => 400
  | .m54xlarge => 600 | .m58xlarge => 1000
  | .c52xlarge => 500 | .c54xlarge => 800 | .c59xlarge => 1500
  | .r52xlarge => 450 | .r54xlarge => 700

/-- Keys of `dms_performance` (DMS replication instance types). -/
inductive DMSInstanceType
  | t3micro | t3small | t3medium | t3large
  | c5large | c5xlarge | c52xlarge | c54xlarge
  | r5large | r5xlarge | r52xlarge | r54xlarge
deriving DecidableEq, Repr

/-- `dms_performance[...]["throughput_mbps"]`. -/
def dms_throughput_mbps : DMSInstanceType → ℚ
  | .t3micro => 50 | .t3small => 100 | .t3medium => 200 | .t3large => 400
  | .c5large => 600 | .c5xlarge => 1200 | .c52xlarge => 2400 | .c54xlarge => 4800
  | .r5large => 800 | .r5xlarge => 1600 | .r52xlarge => 3200 | .r54xlarge => 6400

/-- Keys of `snowball_specs`. -/
inductive SnowballDevice
  | snowcone | snowball_edge_storage | snowball_edge_compute
deriving DecidableEq, Repr

/-- `snowball_specs[...]["capacity_tb"]`. -/
def snowball_capacity_tb : SnowballDevice → ℚ
  | .snowcone => 0.008 | .snowball_edge_storage => 80 | .snowball_edge_compute => 42

/-- `snowball_specs[...]["transfer_rate_gbps"]`. -/
def snowball_transfer_rate_gbps : SnowballDevice → ℚ
  | .snowcone => 0.025 | .snowball_edge_storage => 1 | .snowball_edge_compute => 1

/-- `snowball_specs[...]["shipping_days"]`. -/
def snowball_shipping_days : SnowballDevice → ℚ
  | .snowcone => 4 | .snowball_edge_storage => 6 | .snowball_edge_compute => 6

/-- Keys of `file_size_multipliers`. -/
inductive FileSizeCategory
  | lt1MB | s1to10MB | s10to100MB | s100MBto1GB | gt1GB
deriving DecidableEq, Repr

/-- `file_size_multipliers`. -/
def file_size_multiplier : FileSizeCategory → ℚ
  | .lt1MB => 0.25 | .s1to10MB => 0.45 | .s10to100MB => 0.70
  | .s100MBto1GB => 0.90 | .gt1GB => 0.95

/-- Keys of `network_patterns`; `other` stands for any unrecognised string
(the source falls back to a default efficiency via `dict.get`). -/
inductive NetworkPattern
  | direct_connect_dedicated | direct_connect_hosted
  | site_to_site_vpn | transit_gateway | other
deriving DecidableEq, Repr

/-- `network_patterns.get(p, {}).get("efficiency", 0.85)`. -/
def pattern_efficiency : NetworkPattern → ℚ
  | .direct_connect_dedicated => 0.95
  | .direct_connect_hosted => 0.90
  | .site_to_site_vpn => 0.75
  | .transit_gateway => 0.85
  | .other => 0.85

/-- Database engines of the `db_factors` table in `calculate_dms_throughput`;
`other` stands for any engine not in the table (`dict.get(..., 0.85)`). -/
inductive DBType
  | oracle | sqlserver | mysql | postgresql | mongodb | cassandra | other
deriving DecidableEq, Repr

/-- `db_factors.get(db.lower(), 0.85)`. -/
def db_factor : DBType → ℚ
  | .oracle => 0.85 | .sqlserver => 0.90 | .mysql => 0.95
  | .postgresql => 0.95 | .mongodb => 0.80 | .cassandra => 0.75
  | .other => 0.85

/-- Migration modes of `migration_factors`; `other` stands for any
unrecognised mode (`dict.get(migration_type, 0.8)`). -/
inductive MigrationType
  | full_load | full_load_and_cdc | cdc_only | other
deriving DecidableEq, Repr

/-- `migration_factors.get(migration_type, 0.8)`. -/
def migration_factor : MigrationType → ℚ
  | .full_load => 1.0 | .full_load_and_cdc => 0.8 | .cdc_only => 0.6
  | .other => 0.8

/-- Keys of `shipping_multipliers` in `calculate_snowball_timeline`;
`other` stands for any unrecognised location (`dict.get(..., 1.0)`). -/
inductive ShippingLocation
  | domestic | international | remote | other
deriving DecidableEq, Repr

/-- `shipping_multipliers.get(shipping_location, 1.0)`. -/
def shipping_multiplier : ShippingLocation → ℚ
  | .domestic => 1.0 | .international => 2.0 | .remote => 3.0 | .other => 1.0

/-! Section: ThroughputModel: `calculate_enterprise_throughput` (DataSync / file-sync) -/

/-- `max(0.4, 1 - (latency - 5) / 500)`. -/
def latency_factor (latency : ℚ) : ℚ := max 0.4 (1 - (latency - 5) / 500)

/-- `max(0.8, 1 - jitter / 100)`. -/
def jitter_factor (jitter : ℚ) : ℚ := max 0.8 (1 - jitter / 100)

/-- `max(0.6, 1 - packet_loss / 10)`. -/
def packet_loss_factor (packet_loss : ℚ) : ℚ := max 0.6 (1 - packet_loss / 10)

/-- `1.2 if qos_enabled else 1.0`. -/
def qos_factor (qos_enabled : Bool) : ℚ := if qos_enabled then 1.2 else 1.0

/-- `network_efficiency = latency_factor * jitter_factor * packet_loss_factor
* qos_factor * pattern_efficiency`. -/
def network_efficiency (latency jitter packet_loss : ℚ) (qos_enabled : Bool)
    (pattern : NetworkPattern) : ℚ :=
  latency_factor latency * jitter_factor jitter * packet_loss_factor packet_loss *
    qos_factor qos_enabled * pattern_efficiency pattern

/-- `cpu_memory_factor` tier of `calculate_enterprise_throughput`. -/
def cpu_memory_factor : InstanceType → ℚ
  | .m5large => 0.7
  | .m5xlarge => 0.8
  | .m52xlarge => 0.8
  | _ => 0.9

/-- `real_world_efficiency`: the product of the eight empirical constants in
real-world mode, `0.95` otherwise. -/
def real_world_efficiency (real_world_mode : Bool) (instance_type : InstanceType) : ℚ :=
  if real_world_mode then
    0.75 * 0.6 * 0.8 * 0.85 * 0.9 * cpu_memory_factor instance_type * 0.85 * 0.9 * 0.95
  else 0.95

/-- `agent_efficiency = max(0.4, 1 - (i * 0.05))` for agent index `i`. -/
def agent_efficiency (i : ℕ) : ℚ := max 0.4 (1 - (i : ℚ) * 0.05)

/-- The multi-agent accumulation loop `for i in range(num_agents): total += per(i)`. -/
def agent_loop_sum (per : ℕ → ℚ) : ℕ → ℚ
  | 0 => 0
  | n + 1 => agent_loop_sum per n + per n

/-- Result quadruple of `calculate_enterprise_throughput`:
`(effective_throughput, network_efficiency, theoretical_throughput,
real_world_efficiency)`. -/
structure EnterpriseThroughput where
  effective_throughput : ℚ
  network_efficiency : ℚ
  theoretical_throughput : ℚ
  real_world_efficiency : ℚ
deriving DecidableEq, Repr

/-- `calculate_enterprise_throughput` of `EnhancedMigrationCalculator`. -/
def calculate_enterprise_throughput (instance_type : InstanceType) (num_agents : ℕ)
    (file_size_category : FileSizeCategory) (network_bw_mbps latency jitter packet_loss : ℚ)
    (qos_enabled : Bool) (dedicated_bandwidth : ℚ) (real_world_mode : Bool)
    (pattern : NetworkPattern) : EnterpriseThroughput :=
  let base_performance := baseline_throughput instance_type
  let file_efficiency := file_size_multiplier file_size_category
  let net_eff := network_efficiency latency jitter packet_loss qos_enabled pattern
  let rwe := real_world_efficiency real_world_mode instance_type
  let total_throughput := agent_loop_sum
    (fun i => base_performance * file_efficiency * net_eff * rwe * agent_efficiency i)
    num_agents
  let max_available_bandwidth := network_bw_mbps * (dedicated_bandwidth / 100)
  let effective_throughput := min total_throughput max_available_bandwidth
  let theoretical_throughput :=
    min (base_performance * file_efficiency * net_eff * (num_agents : ℚ))
      max_available_bandwidth
  { effective_throughput := effective_throughput
    network_efficiency := net_eff
    theoretical_throughput := theoretical_throughput
    real_world_efficiency := rwe }

/-! Section: ThroughputModel: `calculate_dms_throughput` (database replication) -/

/-- Result dictionary of `calculate_dms_throughput`. -/
structure DMSResult where
  throughput_mbps : ℚ
  efficiency : ℚ
  full_load_time_hours : ℚ
  cdc_lag_minutes : ℚ
  database_compatibility : ℚ
  network_efficiency : ℚ
deriving DecidableEq, Repr

/-- `calculate_dms_throughput` of `EnhancedMigrationCalculator`.  Returns
`none` where the Python raises `ZeroDivisionError`: when
`final_throughput = 0` (computing `full_load_time_hours`) or
`network_bw_mbps = 0` (computing the `efficiency` entry); there is no guard
in the source for either divisor. -/
def calculate_dms_throughput (instance_type : DMSInstanceType) (database_size_gb : ℚ)
    (database_types : List DBType) (migration_type : MigrationType)
    (pattern : NetworkPattern) (network_bw_mbps : ℚ) : Option DMSResult :=
  let base_throughput := dms_throughput_mbps instance_type
  let avg_db_factor :=
    if database_types.isEmpty then 0.85
    else (database_types.map db_factor).sum / (database_types.length : ℚ)
  let mig_factor := migration_factor migration_type
  let pat_eff := pattern_efficiency pattern
  let size_factor := min 1.0 (0.5 + database_size_gb / 10000)
  let effective_throughput :=
    base_throughput * avg_db_factor * mig_factor * pat_eff * size_factor
  let final_throughput := min effective_throughput (network_bw_mbps * 0.75)
  if final_throughput = 0 then none
  else if network_bw_mbps = 0 then none
  else
    let full_load_time_hours := (database_size_gb * 8 * 1000) / (final_throughput * 3600)
    let cdc_lag_minutes :=
      if migration_type = .full_load_and_cdc then max 1 (database_size_gb / 1000) else 0
    some
      { throughput_mbps := final_throughput
        efficiency := final_throughput / network_bw_mbps
        full_load_time_hours := full_load_time_hours
        cdc_lag_minutes := cdc_lag_minutes
        database_compatibility := avg_db_factor
        network_efficiency := pat_eff }

/-! Section: ThroughputModel: `calculate_snowball_timeline` (physical shipping) -/

/-- Result dictionary of `calculate_snowball_timeline`. -/
structure SnowballTimeline where
  devices_needed : ℤ
  loading_time_days : ℚ
  shipping_days : ℚ
  total_timeline_days : ℚ
  total_cost : ℚ
  throughput_equivalent_mbps : ℚ
  device_utilization : ℚ
deriving DecidableEq, Repr

/-- `get_snowball_pricing` fields `(device_fee, days_included)` of
`AWSPricingManager` (the `snowmobile` row is unreachable through
`SnowballDevice`; unknown keys fall back to the storage-optimised row). -/
def snowball_pricing : SnowballDevice → ℚ × ℚ
  | .snowcone => (60, 5)
  | .snowball_edge_storage => (300, 10)
  | .snowball_edge_compute => (400, 10)

/-- `calculate_snowball_timeline` of `EnhancedMigrationCalculator`.  Returns
`none` where the Python raises `ZeroDivisionError`: when `devices_needed = 0`
(computing `device_utilization`), which happens for `num_devices = 0` and
`data_size_gb ≤ 0`. -/
def calculate_snowball_timeline (data_size_gb : ℚ) (device_type : SnowballDevice)
    (num_devices : ℤ) (shipping_location : ShippingLocation) : Option SnowballTimeline :=
  let device_capacity_gb := snowball_capacity_tb device_type * 1024
  let devices_needed := max num_devices ⌈data_size_gb / device_capacity_gb⌉
  let base_shipping_days := snowball_shipping_days device_type
  let shipping_days := base_shipping_days * shipping_multiplier shipping_location
  let transfer_rate_mbps := snowball_transfer_rate_gbps device_type * 1000
  let loading_time_hours := (data_size_gb * 8) / (transfer_rate_mbps * 3600)
  let loading_time_days := loading_time_hours / 24
  let total_timeline_days := shipping_days * 2 + loading_time_days + 2
  let pricing := snowball_pricing device_type
  let device_cost := pricing.1 * (devices_needed : ℚ)
  let extra_days := max 0 (total_timeline_days - pricing.2)
  let extra_day_cost := extra_days * 15 * (devices_needed : ℚ)
  if devices_needed = 0 then none
  else
    some
      { devices_needed := devices_needed
        loading_time_days := loading_time_days
        shipping_days := shipping_days
        total_timeline_days := total_timeline_days
        total_cost := device_cost + extra_day_cost
        throughput_equivalent_mbps :=
          (data_size_gb * 8 * 1000) / (total_timeline_days * 24 * 3600)
        device_utilization := (data_size_gb / (devices_needed : ℚ)) / device_capacity_gb }

/-! Section: DecisionEngine: `get_optimal_networking_architecture` -/

/-- Python `float(x) if x else default`: a zero (falsy) numeric argument is
replaced by the default. -/
def pyDefault (x default : ℚ) : ℚ := if x = 0 then default else x

/-- One entry of `recommendations["service_recommendations"]` (the `pros` /
`cons` string lists are fixed per service and not modelled). -/
structure ServiceRec where
  suitability : String
  throughput_mbps : ℚ
  estimated_days : ℚ
deriving DecidableEq, Repr

/-- The engine's output dictionary.  Presentation-only fields (`rationale`,
`ai_analysis`, `db_migration_tool`, `estimated_performance`) are not
modelled; `dms` / `snowball` are `none` when their branch did not fire and
the corresponding `service_recommendations` key is absent. -/
structure EngineRec where
  primary_method : String
  secondary_method : String
  networking_option : String
  network_score : ℚ
  dms : Option ServiceRec
  snowball : Option ServiceRec
  datasync : ServiceRec
  cost_efficiency : String
  risk_level : String
deriving DecidableEq, Repr

/-- `get_optimal_networking_architecture` of `EnhancedMigrationCalculator`.
`estimated_latency` stands for the `geographic_latency` table lookup on
`(source_location, target_region)` (default 50), which only feeds the
network-architecture banding; `cfg_database_size_gb` models
`config.get('database_size_gb')` (`none` = no config or key absent, and a
falsy `0` value also falls through to the 30% heuristic). -/
def get_optimal_networking_architecture (data_size_gb₀ dx_bandwidth_mbps₀ : ℚ)
    (database_types : List DBType) (estimated_latency : ℚ)
    (cfg_database_size_gb : Option ℚ) : EngineRec :=
  let data_size_gb := pyDefault data_size_gb₀ 1000
  let dx_bandwidth_mbps := pyDefault dx_bandwidth_mbps₀ 1000
  let data_size_tb := data_size_gb / 1024
  let has_databases := database_types.length > 0
  let networking_option :=
    if dx_bandwidth_mbps ≥ 1000 ∧ estimated_latency < 50 then "Direct Connect (Primary)"
    else if dx_bandwidth_mbps ≥ 500 then "Direct Connect with Internet Backup"
    else "Internet with VPN"
  let network_score : ℚ :=
    if dx_bandwidth_mbps ≥ 1000 ∧ estimated_latency < 50 then 9
    else if dx_bandwidth_mbps ≥ 500 then 7
    else 5
  let dms_rec : Option ServiceRec :=
    if has_databases ∧ data_size_tb ≤ 50 then
      let dms_throughput := min 1000 (dx_bandwidth_mbps * 0.7)
      let db_size_gb :=
        match cfg_database_size_gb with
        | some v => if v = 0 then data_size_gb * 0.3 else v
        | none => data_size_gb * 0.3
      let db_overhead_factor : ℚ := 2.0
      let base_transfer_hours := (db_size_gb * 8 * 1000) / (dms_throughput * 3600)
      let dms_days := max 0.25 (base_transfer_hours / 24 * db_overhead_factor)
      some
        { suitability := "High"
          throughput_mbps := dms_throughput
          estimated_days := dms_days }
    else none
  let snowball_rec : Option ServiceRec :=
    if data_size_tb > 50 then
      let shipping_days : ℚ := 6
      let loading_time_days := max 1 (data_size_tb / 8)
      let processing_days : ℚ := 2
      let total_snowball_days := shipping_days + loading_time_days + processing_days
      let equivalent_mbps := (data_size_gb * 8 * 1000) / (total_snowball_days * 24 * 3600)
      some
        { suitability := if data_size_tb > 100 then "High" else "Medium"
          throughput_mbps := equivalent_mbps
          estimated_days := total_snowball_days }
    else none
  let datasync_throughput := min (dx_bandwidth_mbps * 0.8) 2000
  let datasync_days :=
    if data_size_gb > 0 ∧ datasync_throughput > 0 then
      let data_size_bits := data_size_gb * 8 * 1000000000
      let throughput_bits_per_second := datasync_throughput * 1000000
      let transfer_seconds := data_size_bits / throughput_bits_per_second
      let base_days := transfer_seconds / (24 * 3600)
      let total_overhead : ℚ := 1 + 0.1 + 0.2 + 0.1
      let d := base_days * total_overhead
      if data_size_gb < 100 then max 0.125 d
      else if data_size_gb < 1000 then max 0.25 d
      else max 0.5 d
    else 1.0
  let datasync_rec : ServiceRec :=
    { suitability := if ¬has_databases then "High" else "Medium"
      throughput_mbps := datasync_throughput
      estimated_days := datasync_days }
  let primary_method :=
    if has_databases ∧ data_size_tb ≤ 50 then "DMS"
    else if data_size_tb > 100 ∧ dx_bandwidth_mbps < 1000 then "Snowball Edge"
    else "DataSync"
  let cost_efficiency :=
    if data_size_tb > 100 ∧ dx_bandwidth_mbps < 1000 then "High (Physical transfer)"
    else if dx_bandwidth_mbps ≥ 1000 then "Medium (Network transfer)"
    else "Medium"
  let risk_level :=
    if data_size_tb > 100 ∧ dx_bandwidth_mbps < 1000 then "Medium"
    else if dx_bandwidth_mbps ≥ 1000 then "Low"
    else "Medium"
  { primary_method := primary_method
    secondary_method := "S3 Transfer Acceleration"
    networking_option := networking_option
    network_score := network_score
    dms := dms_rec
    snowball := snowball_rec
    datasync := datasync_rec
    cost_efficiency := cost_efficiency
    risk_level := risk_level }

/-! Section: PricingResolver: fallback tables of `AWSPricingManager` -/

/-- S3 storage classes of `_get_fallback_s3_pricing`; `other` stands for any
unrecognised class (`dict.get(..., 0.023)`). -/
inductive StorageClass
  | standard | standard_ia | one_zone_ia
  | glacier_instant | glacier_flexible | glacier_deep | other
deriving DecidableEq, Repr

/-- `_get_fallback_ec2_pricing` (the `0.10` default is only reachable for
instance-type strings outside the catalog, which the typed embedding
excludes). -/
def fallback_ec2_pricing : InstanceType → ℚ
  | .m5large => 0.096 | .m5xlarge => 0.192 | .m52xlarge => 0.384
  | .m54xlarge => 0.768 | .m58xlarge => 1.536
  | .c52xlarge => 0.34 | .c54xlarge => 0.68 | .c59xlarge => 1.53
  | .r52xlarge => 0.504 | .r54xlarge => 1.008

/-- `_get_fallback_s3_pricing`. -/
def fallback_s3_pricing : StorageClass → ℚ
  | .standard => 0.023 | .standard_ia => 0.0125 | .one_zone_ia => 0.01
  | .glacier_instant => 0.004 | .glacier_flexible => 0.0036
  | .glacier_deep => 0.00099 | .other => 0.023

/-- `_get_fallback_dx_pricing`. -/
def fallback_dx_pricing (bandwidth_mbps : ℚ) : ℚ :=
  if bandwidth_mbps ≥ 10000 then 1.55
  else if bandwidth_mbps ≥ 1000 then 0.30
  else 0.03

/-! Section: PricingResolver: `get_comprehensive_pricing` -/

/-- Outcome of each of the four concurrent futures in
`get_comprehensive_pricing`: `some v` means `future.result(timeout=10)`
returned `v` within its bounded wait; `none` means it raised (timed out or
failed), taking the per-key `except` branch. -/
structure LookupOutcomes where
  ec2 : Option ℚ
  s3 : Option ℚ
  transfer : Option ℚ
  dx : Option ℚ
deriving DecidableEq, Repr

/-- The batch result: all four keys of the `pricing` dictionary. -/
structure ComprehensivePricing where
  ec2 : ℚ
  s3 : ℚ
  transfer : ℚ
  dx : ℚ
deriving DecidableEq, Repr

/-- `get_comprehensive_pricing` of `AWSPricingManager`.  `executor_ok = false`
models the outer `except` branch (thread-pool setup itself failing), which
returns the all-fallback dictionary. -/
def get_comprehensive_pricing (instance_type : InstanceType)
    (storage_class : StorageClass) (bandwidth_mbps : ℚ) (executor_ok : Bool)
    (outcomes : LookupOutcomes) : ComprehensivePricing :=
  if executor_ok then
    { ec2 := outcomes.ec2.getD (fallback_ec2_pricing instance_type)
      s3 := outcomes.s3.getD (fallback_s3_pricing storage_class)
      transfer := outcomes.transfer.getD 0.09
      dx := outcomes.dx.getD (fallback_dx_pricing bandwidth_mbps) }
  else
    { ec2 := fallback_ec2_pricing instance_type
      s3 := fallback_s3_pricing storage_class
      transfer := 0.09
      dx := fallback_dx_pricing bandwidth_mbps }

/-! Section: PricingResolver: cache (`_is_cache_valid`, `_update_cache`,
`get_ec2_pricing`) -/

/-- The two dictionaries `self.cache` and `self.last_cache_update` of
`AWSPricingManager` (`none` = key absent). -/
structure CacheState where
  cache : String → Option ℚ
  last_cache_update : String → Option ℚ

/-- `self.cache_ttl`. -/
def cache_ttl : ℚ := 3600

/-- `_is_cache_valid`: the key must be in both dictionaries and
`time.time() - last_cache_update[key] < cache_ttl`. -/
def is_cache_valid (s : CacheState) (key : String) (now : ℚ) : Bool :=
  match s.cache key, s.last_cache_update key with
  | some _, some t => decide (now - t < cache_ttl)
  | _, _ => false

/-- `_update_cache`: writes value and current timestamp together. -/
def update_cache (s : CacheState) (key : String) (value now : ℚ) : CacheState :=
  { cache := fun k => if k = key then some value else s.cache k
    last_cache_update := fun k => if k = key then some now else s.last_cache_update k }

/-- Instance-type component of the `f"ec2_{instance_type}_{region}"` cache
key. -/
def instanceTypeName : InstanceType → String
  | .m5large => "m5.large" | .m5xlarge => "m5.xlarge" | .m52xlarge => "m5.2xlarge"
  | .m54xlarge => "m5.4xlarge" | .m58xlarge => "m5.8xlarge"
  | .c52xlarge => "c5.2xlarge" | .c54xlarge => "c5.4xlarge" | .c59xlarge => "c5.9xlarge"
  | .r52xlarge => "r5.2xlarge" | .r54xlarge => "r5.4xlarge"

/-- Cache key built by `get_ec2_pricing`. -/
def ec2_cache_key (instance_type : InstanceType) (region : String) : String :=
  "ec2_" ++ instanceTypeName instance_type ++ "_" ++ region

/-- Result of one `get_ec2_pricing` call: returned price, cache state after
the call, and whether an external `get_products` lookup was issued. -/
structure PricingCallResult where
  price : ℚ
  state : CacheState
  lookup_performed : Bool

/-- One call of `get_ec2_pricing`.  `client_configured` models
`self.pricing_client` being non-`None`; `provider_outcome = some p` models a
`get_products` response whose first OnDemand price dimension carries USD
price `p`, and `none` models an empty price list, a response with no USD
dimension, or an exception — all of which return the static fallback without
touching the cache. -/
def get_ec2_pricing_call (client_configured : Bool) (s : CacheState)
    (instance_type : InstanceType) (region : String) (provider_outcome : Option ℚ)
    (now : ℚ) : PricingCallResult :=
  let fallback := fallback_ec2_pricing instance_type
  if ¬client_configured then ⟨fallback, s, false⟩
  else
    let key := ec2_cache_key instance_type region
    if is_cache_valid s key now then ⟨(s.cache key).getD 0, s, false⟩
    else
      match provider_outcome with
      | some p => ⟨p, update_cache s key p now, true⟩
      | none => ⟨fallback, s, true⟩

/-- A concrete cache state holding one entry (the `m5.large` / `us-east-1`
key, value 0.096, written at time 100), used to exercise the cache theorems
on explicit inputs. -/
def testCacheState : CacheState where
  cache := fun k => if k = ec2_cache_key .m5large "us-east-1" then some 0.096 else none
  last_cache_update := fun k =>
    if k = ec2_cache_key .m5large "us-east-1" then some 100 else none

/-! Section: Theorems -/

/-- C2: for every invocation of the batch price resolution
(`get_comprehensive_pricing`), the result is a complete map with all four
keys (ec2, s3, transfer, dx); a lookup that fails or exceeds its 10-unit
bounded wait degrades only its own entry to that key's static fallback, each
entry depending solely on its own lookup outcome; and even if the executor
itself fails, the complete all-fallback map is returned. -/
theorem C2_batch_pricing_complete (it : InstanceType) (sc : StorageClass) (bw : ℚ)
    (o : LookupOutcomes) :
    (get_comprehensive_pricing it sc bw true o).ec2 =
        o.ec2.getD (fallback_ec2_pricing it) ∧
    (get_comprehensive_pricing it sc bw true o).s3 =
        o.s3.getD (fallback_s3_pricing sc) ∧
    (get_comprehensive_pricing it sc bw true o).transfer = o.transfer.getD 0.09 ∧
    (get_comprehensive_pricing it sc bw true o).dx =
        o.dx.getD (fallback_dx_pricing bw) ∧
    get_comprehensive_pricing it sc bw false o =
      ⟨fallback_ec2_pricing it, fallback_s3_pricing sc, 0.09, fallback_dx_pricing bw⟩ :=
  ⟨rfl, rfl, rfl, rfl, rfl⟩

/-- C3: the claim says all three throughput models substitute a safe minimum
duration floor on zero/negative effective throughput and never raise.  The
code does not: `calculate_dms_throughput` with `network_bw_mbps = 0` caps
`final_throughput` to `min(·, 0) = 0` and then divides by
`final_throughput * 3600`, raising `ZeroDivisionError` (modelled as `none`).
This theorem evaluates the model at that failing input. -/
theorem C3_dms_division_by_zero :
    calculate_dms_throughput .t3medium 5000 [.postgresql] .full_load
      .direct_connect_dedicated 0 = none := by
  norm_num [calculate_dms_throughput, dms_throughput_mbps, db_factor, migration_factor,
    pattern_efficiency, min_def, max_def]

/-- C4 counterexample: the claim says the reported theoretical throughput of
the file-sync model equals the multi-agent computation without the bandwidth
cap.  At this input the cap does not bind, so the claimed value is the
multi-agent sum (which includes `real_world_efficiency`), yet the code's
`theoretical_throughput` differs: the code computes
`min(base * file * net * n, cap)`, dropping the real-world factor and the
per-agent derating. -/
theorem C4_theoretical_counterexample :
    (calculate_enterprise_throughput .m5large 1 .gt1GB 1000000 5 0 0 false 100 true
      .direct_connect_dedicated).theoretical_throughput ≠
    agent_loop_sum (fun i =>
      baseline_throughput .m5large * file_size_multiplier .gt1GB *
        network_efficiency 5 0 0 false .direct_connect_dedicated *
        real_world_efficiency true .m5large * agent_efficiency i) 1 := by
  norm_num [calculate_enterprise_throughput, agent_loop_sum, baseline_throughput,
    file_size_multiplier, network_efficiency, latency_factor, jitter_factor,
    packet_loss_factor, qos_factor, pattern_efficiency, real_world_efficiency,
    cpu_memory_factor, agent_efficiency, min_def, max_def]

/-- C4 amended: the theoretical throughput is
`min(base_rate * file_efficiency * network_efficiency * num_agents, cap)` —
capped at `network_bandwidth_mbps * dedicated_bandwidth_pct / 100` just like
the effective throughput, and computed without the real-world efficiency and
without per-agent diminishing returns; the effective throughput is the
multi-agent sum under the same cap, hence at most the cap. -/
theorem C4_theoretical_formula (it : InstanceType) (n : ℕ) (fc : FileSizeCategory)
    (bw lat jit pl : ℚ) (qos : Bool) (ded : ℚ) (rw : Bool) (pat : NetworkPattern) :
    (calculate_enterprise_throughput it n fc bw lat jit pl qos ded rw pat).theoretical_throughput =
      min (baseline_throughput it * file_size_multiplier fc *
        network_efficiency lat jit pl qos pat * (n : ℚ)) (bw * (ded / 100)) ∧
    (calculate_enterprise_throughput it n fc bw lat jit pl qos ded rw pat).effective_throughput =
      min (agent_loop_sum (fun i => baseline_throughput it * file_size_multiplier fc *
          network_efficiency lat jit pl qos pat * real_world_efficiency rw it *
          agent_efficiency i) n) (bw * (ded / 100)) ∧
    (calculate_enterprise_throughput it n fc bw lat jit pl qos ded rw pat).effective_throughput ≤
      bw * (ded / 100) :=
  ⟨rfl, rfl, min_le_right _ _⟩

/-- C5 counterexample: the claim says a change-capture lag of
`max(1, database_size_gb/1000)` minutes is reported for both
change-capture modes; for `cdc_only` the code's `else` branch reports a lag
of 0 instead (here the claim would give `max(1, 5) = 5`). -/
theorem C5_cdc_only_counterexample :
    (calculate_dms_throughput .t3medium 5000 [.postgresql] .cdc_only
        .direct_connect_dedicated 10000).map (fun r => r.cdc_lag_minutes) = some 0 ∧
    (0 : ℚ) ≠ max 1 ((5000 : ℚ) / 1000) := by
  constructor
  · norm_num [calculate_dms_throughput, dms_throughput_mbps, db_factor, migration_factor,
      pattern_efficiency, min_def, max_def]
    decide
  · norm_num [max_def]

/-- C5 amended: whenever `calculate_dms_throughput` returns (no division by
zero), the full-load duration in hours equals
`database_size_gb * 8000 / (effective_mbps * 3600)` for every migration
mode, and the change-capture lag `max(1, database_size_gb/1000)` minutes is
reported exactly when the mode is full-load-with-change-capture; the
change-capture-only mode reports a lag of 0, and no separate elapsed-time
overhead multiplier is applied (the mode only derates the throughput). -/
theorem C5_dms_duration_formula (it : DMSInstanceType) (gb : ℚ) (dbs : List DBType)
    (mt : MigrationType) (pat : NetworkPattern) (bw : ℚ) (r : DMSResult)
    (h : calculate_dms_throughput it gb dbs mt pat bw = some r) :
    r.full_load_time_hours = gb * 8000 / (r.throughput_mbps * 3600) ∧
    r.cdc_lag_minutes = if mt = .full_load_and_cdc then max 1 (gb / 1000) else 0 := by
  simp only [calculate_dms_throughput] at h
  split_ifs at h
  all_goals
    rw [Option.some.injEq] at h
    subst h
    dsimp only
    exact ⟨by ring_nf, by simp_all⟩

/-- C5 witness: the amended theorem applied to a concrete
full-load-with-change-capture configuration. -/
theorem C5_dms_duration_witness :
    calculate_dms_throughput .t3medium 5000 [.postgresql] .full_load_and_cdc
        .direct_connect_dedicated 10000 =
      some ⟨722/5, 361/25000, 250000/3249, 5, 0.95, 0.95⟩ ∧
    (250000/3249 : ℚ) = 5000 * 8000 / (722/5 * 3600) ∧
    (5 : ℚ) = if MigrationType.full_load_and_cdc = .full_load_and_cdc
      then max 1 ((5000 : ℚ) / 1000) else 0 := by
  have h : calculate_dms_throughput .t3medium 5000 [.postgresql] .full_load_and_cdc
      .direct_connect_dedicated 10000 =
      some ⟨722/5, 361/25000, 250000/3249, 5, 0.95, 0.95⟩ := by
    norm_num [calculate_dms_throughput, dms_throughput_mbps, db_factor, migration_factor,
      pattern_efficiency, min_def, max_def, DMSResult.mk.injEq]
  exact ⟨h, (C5_dms_duration_formula _ 5000 _ _ _ 10000 _ h).1,
    (C5_dms_duration_formula _ 5000 _ _ _ 10000 _ h).2⟩

/-- C8: for every database-replication configuration on which the model
returns (any instance type, database list, migration mode, network pattern)
with non-negative network bandwidth, the effective throughput is at most
`0.75 * network_bandwidth_mbps`: the code takes
`min(effective_throughput, network_bw_mbps * 0.75)`. -/
theorem C8_dms_throughput_cap (it : DMSInstanceType) (gb : ℚ) (dbs : List DBType)
    (mt : MigrationType) (pat : NetworkPattern) (bw : ℚ) (r : DMSResult)
    (hbw : 0 ≤ bw) (h : calculate_dms_throughput it gb dbs mt pat bw = some r) :
    r.throughput_mbps ≤ 0.75 * bw := by
  simp only [calculate_dms_throughput] at h
  split_ifs at h
  all_goals
    rw [Option.some.injEq] at h
    subst h
    dsimp only
    exact (min_le_right _ _).trans_eq (mul_comm _ _)

/-- C8 witness: the cap theorem applied to a concrete configuration. -/
theorem C8_dms_throughput_cap_witness :
    (0 : ℚ) ≤ 1000 ∧
    calculate_dms_throughput .t3medium 5000 [.postgresql] .full_load
        .direct_connect_dedicated 1000 = some ⟨361/2, 361/2000, 200000/3249, 0, 0.95, 0.95⟩ ∧
    (361/2 : ℚ) ≤ 0.75 * 1000 := by
  have h : calculate_dms_throughput .t3medium 5000 [.postgresql] .full_load
      .direct_connect_dedicated 1000 = some ⟨361/2, 361/2000, 200000/3249, 0, 0.95, 0.95⟩ := by
    norm_num [calculate_dms_throughput, dms_throughput_mbps, db_factor, migration_factor,
      pattern_efficiency, min_def, max_def, DMSResult.mk.injEq]
    decide
  exact ⟨by norm_num, h,
    C8_dms_throughput_cap .t3medium 5000 [.postgresql] .full_load
      .direct_connect_dedicated 1000 _ (by norm_num) h⟩

/-- C1 counterexample: the claim says physical-shipping is primary iff data
exceeds 100TB and bandwidth is below 1000 Mbps.  With raw bandwidth 0 (a
falsy value, coerced by the engine to the default 1000) and 200TB of data
and no databases, the claim's condition holds (0 < 1000) yet the engine
selects DataSync. -/
theorem C1_primary_selection_counterexample :
    (get_optimal_networking_architecture 204800 0 [] 50 none).primary_method = "DataSync" ∧
    (204800 : ℚ) / 1024 > 100 ∧ (0 : ℚ) < 1000 := by
  refine ⟨?_, by norm_num, by norm_num⟩
  norm_num [get_optimal_networking_architecture, pyDefault, min_def, max_def]

/-- C1 amended: with zero (falsy) data size or bandwidth first coerced to
the default 1000, the primary mechanism is database-replication ("DMS") iff
databases are present and coerced data is at most 50TB; otherwise
physical-shipping ("Snowball Edge") iff coerced data exceeds 100TB and
coerced bandwidth is below 1000 Mbps; otherwise file-sync ("DataSync"); and
the secondary mechanism is always the fixed "S3 Transfer Acceleration"
suggestion. -/
theorem C1_primary_selection (gb bw lat : ℚ) (dbs : List DBType) (cfg : Option ℚ) :
    ((get_optimal_networking_architecture gb bw dbs lat cfg).primary_method = "DMS" ↔
      0 < dbs.length ∧ pyDefault gb 1000 / 1024 ≤ 50) ∧
    ((get_optimal_networking_architecture gb bw dbs lat cfg).primary_method = "Snowball Edge" ↔
      ¬(0 < dbs.length ∧ pyDefault gb 1000 / 1024 ≤ 50) ∧
        (pyDefault gb 1000 / 1024 > 100 ∧ pyDefault bw 1000 < 1000)) ∧
    ((get_optimal_networking_architecture gb bw dbs lat cfg).primary_method = "DataSync" ↔
      ¬(0 < dbs.length ∧ pyDefault gb 1000 / 1024 ≤ 50) ∧
        ¬(pyDefault gb 1000 / 1024 > 100 ∧ pyDefault bw 1000 < 1000)) ∧
    (get_optimal_networking_architecture gb bw dbs lat cfg).secondary_method =
      "S3 Transfer Acceleration" := by
  simp only [get_optimal_networking_architecture]
  split_ifs with h1 h2 <;> simp_all

/-- C6 counterexample: the claim says the database-replication
recommendation's throughput is 70% of the line bandwidth; at 2000 Mbps the
engine caps it at `min(1000, 0.7 * 2000) = 1000 ≠ 1400`. -/
theorem C6_dms_branch_counterexample :
    (get_optimal_networking_architecture 5000 2000 [.postgresql] 50 none).dms.map
      (fun s => s.throughput_mbps) = some 1000 ∧
    (1000 : ℚ) ≠ 0.7 * 2000 := by
  refine ⟨?_, by norm_num⟩
  norm_num [get_optimal_networking_architecture, pyDefault, min_def, max_def]

/-- C6 amended: with databases present and coerced data at most 50TB, the
engine emits a database-replication recommendation with "High" suitability,
throughput `min(1000, 0.7 * coerced_bandwidth)` (70% of line bandwidth but
never above 1000 Mbps), and estimated duration equal to the raw transfer
time of the database portion (configured size, or 30% of total data) under
a 2x consistency-overhead factor, floored at 0.25 days (6 hours). -/
theorem C6_dms_branch (gb bw lat : ℚ) (dbs : List DBType) (cfg : Option ℚ)
    (hdb : 0 < dbs.length) (hsz : pyDefault gb 1000 / 1024 ≤ 50) :
    (get_optimal_networking_architecture gb bw dbs lat cfg).dms =
      some { suitability := "High"
             throughput_mbps := min 1000 (pyDefault bw 1000 * 0.7)
             estimated_days := max 0.25
               ((match cfg with
                 | some v => if v = 0 then pyDefault gb 1000 * 0.3 else v
                 | none => pyDefault gb 1000 * 0.3) * 8 * 1000 /
                (min 1000 (pyDefault bw 1000 * 0.7) * 3600) / 24 * 2.0) } := by
  simp only [get_optimal_networking_architecture]
  rw [if_pos (show dbs.length > 0 ∧ pyDefault gb 1000 / 1024 ≤ 50 from ⟨hdb, hsz⟩)]

/-- C6 witness: the amended database-replication branch theorem applied to a
concrete configuration (5000 GB, 2000 Mbps, one PostgreSQL engine). -/
theorem C6_dms_branch_witness :
    0 < [DBType.postgresql].length ∧ pyDefault 5000 1000 / 1024 ≤ 50 ∧
    (get_optimal_networking_architecture 5000 2000 [.postgresql] 50 none).dms =
      some { suitability := "High"
             throughput_mbps := min 1000 (pyDefault 2000 1000 * 0.7)
             estimated_days := max 0.25 (pyDefault 5000 1000 * 0.3 * 8 * 1000 /
               (min 1000 (pyDefault 2000 1000 * 0.7) * 3600) / 24 * 2.0) } :=
  ⟨by decide, by norm_num [pyDefault],
    C6_dms_branch 5000 2000 50 [.postgresql] none (by decide) (by norm_num [pyDefault])⟩

/-- C7 counterexample: at 60TB the engine's snowball recommendation reports
15.5 days (fixed 6 shipping days + max(1, TB/8) loading + 2 processing),
while `calculate_snowball_timeline` on the same data with a
storage-optimised device, 1 requested device and domestic shipping reports
2*6 + loading + 2 ≈ 14.006 days: the engine does not use the §4.2 shipping
model. -/
theorem C7_snowball_counterexample :
    (get_optimal_networking_architecture 61440 500 [] 50 none).snowball.map
      (fun s => s.estimated_days) = some (31/2) ∧
    (calculate_snowball_timeline 61440 .snowball_edge_storage 1 .domestic).map
      (fun t => t.total_timeline_days) ≠ some (31/2) := by
  constructor
  · norm_num [get_optimal_networking_architecture, pyDefault, min_def, max_def]
  · norm_num [calculate_snowball_timeline, snowball_capacity_tb, snowball_shipping_days,
      snowball_transfer_rate_gbps, shipping_multiplier, snowball_pricing, min_def, max_def]

/-- C7 amended: with coerced data above 50TB the engine emits a
physical-shipping recommendation with "High" suitability above 100TB and
"Medium" otherwise, whose duration comes from the engine's own inline
logistics model — 6 fixed shipping days plus `max(1, data_TB/8)` loading
days plus 2 processing days — and whose throughput is the equivalent-rate
`data_gb * 8 * 1000 / (total_days * 24 * 3600)`, not from
`calculate_snowball_timeline`. -/
theorem C7_snowball_branch (gb bw lat : ℚ) (dbs : List DBType) (cfg : Option ℚ)
    (hsz : pyDefault gb 1000 / 1024 > 50) :
    (get_optimal_networking_architecture gb bw dbs lat cfg).snowball =
      some { suitability := if pyDefault gb 1000 / 1024 > 100 then "High" else "Medium"
             throughput_mbps := pyDefault gb 1000 * 8 * 1000 /
               ((6 + max 1 (pyDefault gb 1000 / 1024 / 8) + 2) * 24 * 3600)
             estimated_days := 6 + max 1 (pyDefault gb 1000 / 1024 / 8) + 2 } := by
  simp only [get_optimal_networking_architecture]
  rw [if_pos hsz]

/-- C7 witness: the amended snowball branch theorem applied to a concrete
60TB configuration. -/
theorem C7_snowball_branch_witness :
    pyDefault 61440 1000 / 1024 > 50 ∧
    (get_optimal_networking_architecture 61440 500 [] 50 none).snowball =
      some { suitability := if pyDefault 61440 1000 / 1024 > 100 then "High" else "Medium"
             throughput_mbps := pyDefault 61440 1000 * 8 * 1000 /
               ((6 + max 1 (pyDefault 61440 1000 / 1024 / 8) + 2) * 24 * 3600)
             estimated_days := 6 + max 1 (pyDefault 61440 1000 / 1024 / 8) + 2 } :=
  ⟨by norm_num [pyDefault],
    C7_snowball_branch 61440 500 50 [] none (by norm_num [pyDefault])⟩

/-- C9: cache semantics of the pricing resolver: (1) an entry whose age is
at least the TTL (3600s) is never valid; (2) with such a stale entry, the
returned price is the provider result or the static fallback — the cached
value is never served; (3) a value cached at time `t` and requested again
before `t + TTL` is returned identically, with no external lookup and no
state change; (4) a live value retrieved on a cache miss is written into
the cache together with the current timestamp and returned. -/
theorem C9_cache_semantics :
    (∀ (s : CacheState) (key : String) (now t : ℚ),
      s.last_cache_update key = some t → cache_ttl ≤ now - t →
        is_cache_valid s key now = false) ∧
    (∀ (s : CacheState) (it : InstanceType) (region : String) (po : Option ℚ) (now t : ℚ),
      s.last_cache_update (ec2_cache_key it region) = some t → cache_ttl ≤ now - t →
        (get_ec2_pricing_call true s it region po now).price =
          po.getD (fallback_ec2_pricing it)) ∧
    (∀ (s : CacheState) (it : InstanceType) (region : String) (po : Option ℚ) (now t v : ℚ),
      s.cache (ec2_cache_key it region) = some v →
      s.last_cache_update (ec2_cache_key it region) = some t → now - t < cache_ttl →
        get_ec2_pricing_call true s it region po now = ⟨v, s, false⟩) ∧
    (∀ (s : CacheState) (it : InstanceType) (region : String) (p now : ℚ),
      is_cache_valid s (ec2_cache_key it region) now = false →
        get_ec2_pricing_call true s it region (some p) now =
          ⟨p, update_cache s (ec2_cache_key it region) p now, true⟩ ∧
        (update_cache s (ec2_cache_key it region) p now).cache (ec2_cache_key it region) =
          some p ∧
        (update_cache s (ec2_cache_key it region) p now).last_cache_update
          (ec2_cache_key it region) = some now) := by
  refine ⟨?_, ?_, ?_, ?_⟩
  · intro s key now t hlu htt
    unfold is_cache_valid
    cases hc : s.cache key <;> simp [hlu, not_lt.mpr htt]
  · intro s it region po now t hlu htt
    have hv : is_cache_valid s (ec2_cache_key it region) now = false := by
      unfold is_cache_valid
      cases hc : s.cache (ec2_cache_key it region) <;> simp [hlu, not_lt.mpr htt]
    unfold get_ec2_pricing_call
    simp only [hv]
    cases po <;> simp
  · intro s it region po now t v hc hlu hlt
    have hv : is_cache_valid s (ec2_cache_key it region) now = true := by
      unfold is_cache_valid
      simp [hc, hlu, hlt]
    unfold get_ec2_pricing_call
    simp [hv, hc]
  · intro s it region p now hv
    refine ⟨?_, ?_, ?_⟩
    · unfold get_ec2_pricing_call
      simp [hv]
    · unfold update_cache
      simp
    · unfold update_cache
      simp

/-- C9 witness: the cache theorem applied to `testCacheState` (one entry
written at time 100): stale at time 4000 (never served, provider fallback
returned), fresh hit at time 200 (identical value, no lookup, no state
change), and write-through of a live value at time 4000. -/
theorem C9_cache_semantics_witness :
    testCacheState.last_cache_update (ec2_cache_key .m5large "us-east-1") = some 100 ∧
    cache_ttl ≤ (4000 : ℚ) - 100 ∧
    is_cache_valid testCacheState (ec2_cache_key .m5large "us-east-1") 4000 = false ∧
    (get_ec2_pricing_call true testCacheState .m5large "us-east-1" none 4000).price =
      (none : Option ℚ).getD (fallback_ec2_pricing .m5large) ∧
    get_ec2_pricing_call true testCacheState .m5large "us-east-1" none 200 =
      ⟨0.096, testCacheState, false⟩ ∧
    get_ec2_pricing_call true testCacheState .m5large "us-east-1" (some 0.105) 4000 =
      ⟨0.105, update_cache testCacheState (ec2_cache_key .m5large "us-east-1") 0.105 4000,
        true⟩ := by
  have hlu : testCacheState.last_cache_update (ec2_cache_key .m5large "us-east-1") =
      some 100 := by
    simp [testCacheState]
  have hc : testCacheState.cache (ec2_cache_key .m5large "us-east-1") = some 0.096 := by
    simp [testCacheState]
  have htt : cache_ttl ≤ (4000 : ℚ) - 100 := by norm_num [cache_ttl]
  have hlt : (200 : ℚ) - 100 < cache_ttl := by norm_num [cache_ttl]
  have hval := C9_cache_semantics.1 testCacheState _ 4000 100 hlu htt
  exact ⟨hlu, htt, hval,
    C9_cache_semantics.2.1 testCacheState .m5large "us-east-1" none 4000 100 hlu htt,
    C9_cache_semantics.2.2.1 testCacheState .m5large "us-east-1" none 200 100 0.096 hc hlu hlt,
    (C9_cache_semantics.2.2.2 testCacheState .m5large "us-east-1" 0.105 4000 hval).1⟩

/-- C10 counterexample: the claim says the file-sync entry has a tiered
duration minimum of 0.25 days below 1TB; at 50 GB (below 1TB) with ample
bandwidth the engine's minimum is 0.125 days, below 0.25. -/
theorem C10_datasync_counterexample :
    (get_optimal_networking_architecture 50 100000 [] 50 none).datasync.estimated_days =
      0.125 ∧ (0.125 : ℚ) < 0.25 := by
  refine ⟨?_, by norm_num⟩
  norm_num [get_optimal_networking_architecture, pyDefault, min_def, max_def]

/-- C10 amended: the file-sync entry's throughput equals (hence is at most)
`min(0.8 * coerced_bandwidth, 2000)` — an absolute 2000 Mbps ceiling; the
duration is always at least 0.125 days, with tiered minimums 0.125 days
below 100GB, 0.25 days from 100GB up to 1TB and 0.5 days at 1TB or more
(coerced data, positive throughput), and a fixed 1.0-day fallback when
coerced data or throughput is non-positive. -/
theorem C10_datasync_bounds (gb bw lat : ℚ) (dbs : List DBType) (cfg : Option ℚ) :
    (get_optimal_networking_architecture gb bw dbs lat cfg).datasync.throughput_mbps =
      min (pyDefault bw 1000 * 0.8) 2000 ∧
    0.125 ≤ (get_optimal_networking_architecture gb bw dbs lat cfg).datasync.estimated_days ∧
    (100 ≤ pyDefault gb 1000 → pyDefault gb 1000 < 1000 →
      0 < min (pyDefault bw 1000 * 0.8) 2000 →
      0.25 ≤ (get_optimal_networking_architecture gb bw dbs lat cfg).datasync.estimated_days) ∧
    (1000 ≤ pyDefault gb 1000 → 0 < min (pyDefault bw 1000 * 0.8) 2000 →
      0.5 ≤ (get_optimal_networking_architecture gb bw dbs lat cfg).datasync.estimated_days) ∧
    (¬(pyDefault gb 1000 > 0 ∧ min (pyDefault bw 1000 * 0.8) 2000 > 0) →
      (get_optimal_networking_architecture gb bw dbs lat cfg).datasync.estimated_days = 1.0) := by
  refine ⟨rfl, ?_, ?_, ?_, ?_⟩
  · simp only [get_optimal_networking_architecture]
    split_ifs
    all_goals norm_num [le_max_iff]
  · intro h1 h2 h3
    simp only [get_optimal_networking_architecture]
    split_ifs
    all_goals first
      | linarith
      | norm_num [le_max_iff]
  · intro h1 h3
    simp only [get_optimal_networking_architecture]
    split_ifs
    all_goals first
      | linarith
      | norm_num [le_max_iff]
  · intro hn
    simp only [get_optimal_networking_architecture]
    rw [if_neg hn]

/-- C10 witness: the bounds theorem applied to a 1500 GB configuration
(the 0.5-day tier) and to a negative-data configuration (the 1.0-day
fallback branch). -/
theorem C10_datasync_bounds_witness :
    (get_optimal_networking_architecture 1500 3000 [] 50 none).datasync.throughput_mbps =
      min (pyDefault 3000 1000 * 0.8) 2000 ∧
    (1000 : ℚ) ≤ pyDefault 1500 1000 ∧
    (0 : ℚ) < min (pyDefault 3000 1000 * 0.8) 2000 ∧
    0.5 ≤ (get_optimal_networking_architecture 1500 3000 [] 50 none).datasync.estimated_days ∧
    ¬(pyDefault (-5) 1000 > 0 ∧ min (pyDefault (-7) 1000 * 0.8) 2000 > 0) ∧
    (get_optimal_networking_architecture (-5) (-7) [] 50 none).datasync.estimated_days = 1.0 := by
  have h1 : (1000 : ℚ) ≤ pyDefault 1500 1000 := by norm_num [pyDefault]
  have h3 : (0 : ℚ) < min (pyDefault 3000 1000 * 0.8) 2000 := by
    norm_num [pyDefault, lt_min_iff]
  have hn : ¬(pyDefault (-5 : ℚ) 1000 > 0 ∧
      min (pyDefault (-7 : ℚ) 1000 * 0.8) 2000 > 0) := by
    norm_num [pyDefault]
  exact ⟨(C10_datasync_bounds 1500 3000 50 [] none).1, h1, h3,
    (C10_datasync_bounds 1500 3000 50 [] none).2.2.2.1 h1 h3,
    hn, (C10_datasync_bounds (-5) (-7) 50 [] none).2.2.2.2 hn⟩

end NetworkPatterns
